import Mathlib

/-!
A verification development for the tool layer of a retrieval-augmented
chatbot (`backend/search_tools.py`): the content-search tool, the
course-outline tool and the tool registry/dispatcher.  Python code is
embedded shallowly: methods become pure functions, mutation of the
`last_sources` attribute becomes explicit state passing, raised
exceptions become `Except` values, and the retrieval backend
(`VectorStore`) becomes a record of oracle functions.
-/

/-! ## Python value rendering -/

/-- Decimal rendering of a natural number, exactly as Python `str` renders it. -/
def natStr (n : Nat) : String :=
  if n = 0 then "0" else String.mk (((Nat.digits 10 n).map Nat.digitChar).reverse)

/-- Rendering of a Python `int`, exactly as Python `str` renders it
(decimal digits, a leading minus sign for negative values). -/
def intStr : Int → String
  | Int.ofNat n => natStr n
  | Int.negSucc n => "-" ++ natStr (n + 1)

/-- Rendering of a Python optional `int` inside an f-string: `None` renders
as the four characters `None`, an `int` renders in decimal. -/
def pyOptIntStr : Option Int → String
  | none => "None"
  | some n => intStr n

/-- Python truthiness of an optional string: `None` and the empty string
are falsy. -/
def pyTruthyStr : Option String → Bool
  | none => false
  | some s => !(s == "")

/-! ## Data model -/

/-- Modelled from the spec: the Citation Record (`models.Source`, not under
`src/`): course title, optional links/titles and the 1-based
`citation_number` assigned at creation (spec section 3). -/
structure Source where
  course_title : String
  course_link : Option String
  lesson_number : Option Int
  lesson_title : Option String
  lesson_link : Option String
  citation_number : Nat
deriving DecidableEq

/-- The metadata mapping stored with one retrieved document chunk, restricted
to the two keys the tool layer reads (`course_title`, `lesson_number`);
a `none` field models an absent key. -/
structure SearchMeta where
  course_title : Option String
  lesson_number : Option Int
deriving DecidableEq

/-- Modelled from the spec: the Retrieval Result Set
(`vector_store.SearchResults`, not under `src/`): aligned document and
metadata sequences plus an optional error message (spec section 3).  The
numeric distance scores are omitted: they are floating point and no claim
reads them. -/
structure SearchResults where
  documents : List String
  metadata : List SearchMeta
  error : Option String

/-- Modelled from the spec: a Retrieval Result Set is empty when it holds
zero documents (spec section 3: "Empty means zero documents and no
error"; the error case is dispatched before this test in the tool code). -/
def SearchResults.is_empty (rs : SearchResults) : Bool :=
  rs.documents.isEmpty

/-- One stored course-catalog metadata mapping, restricted to the keys the
tool layer reads; a `none` field models an absent key.  The lesson list is
kept in its serialized (JSON string) form, as in the catalog. -/
structure CatalogMeta where
  course_link : Option String
  instructor : Option String
  lessons_json : Option String

/-- One lesson mapping as parsed from the serialized lesson list; a `none`
field models an absent key. -/
structure LessonDict where
  lesson_number : Option Int
  lesson_title : Option String
  lesson_link : Option String
deriving DecidableEq

/-- Modelled from the spec: the Retrieval Backend surface the tool layer
consumes (`vector_store.VectorStore`, not under `src/`, spec section 6),
as a record of oracle functions.  An `Except.error e` models the call
raising a Python exception whose `str` is `e`.  `course_catalog_get`
returns the `metadatas` list of the catalog lookup (empty when the course
is unknown), and `json_loads` models `json.loads` on a stored serialized
lesson list (`Except.error` models `json.JSONDecodeError`). -/
structure VectorStore where
  search : String → Option String → Option Int → Except String SearchResults
  get_course_link : String → Except String (Option String)
  get_lesson_link : String → Int → Except String (Option String)
  resolve_course_name : String → Except String (Option String)
  course_catalog_get : String → Except String (List CatalogMeta)
  json_loads : String → Except String (List LessonDict)

/-! ## CourseSearchTool

The content-search tool (`CourseSearchTool` in `backend/search_tools.py`).
Its single piece of mutable state, the `last_sources` attribute, is passed
explicitly: `execute` maps the old accumulated citation list to the new one.
-/

namespace CourseSearchTool

/-- The scan of a parsed lesson list inside `_get_lesson_title`: the
`lesson_title` value of the first lesson whose `lesson_number` equals `n`
(`None` when the loop falls through). -/
def findLessonTitle : List LessonDict → Int → Option String
  | [], _ => none
  | l :: ls, n => if l.lesson_number = some n then l.lesson_title else findLessonTitle ls n

/-- `CourseSearchTool._get_lesson_title`: looks the course up in the catalog,
parses its serialized lesson list and scans for the lesson number; every
failure (raised exception, missing metadata, missing or unparsable
`lessons_json`) is swallowed and yields `None`. -/
def get_lesson_title (store : VectorStore) (course_title : String) (lesson_number : Int) :
    Option String :=
  match store.course_catalog_get course_title with
  | Except.error _ => none
  | Except.ok [] => none
  | Except.ok (metadata :: _) =>
    match metadata.lessons_json with
    | none => none
    | some lj =>
      match store.json_loads lj with
      | Except.error _ => none
      | Except.ok lessons => findLessonTitle lessons lesson_number

/-- The context header built for one document block:
`[<course title>]`, or `[<course title> - Lesson <n>]` when the metadata
holds a lesson number (tested with `is not None`). -/
def headerOf (course_title : String) (lesson_num : Option Int) : String :=
  "[" ++ course_title ++
    (match lesson_num with
     | some n => " - Lesson " ++ intStr n
     | none => "") ++ "]"

/-- The deduplication key `f"{course_title}_{lesson_num}"` used by
`_format_results`. -/
def sourceKey (course_title : String) (lesson_num : Option Int) : String :=
  course_title ++ "_" ++ pyOptIntStr lesson_num

/-- The loop state of `_format_results`: the formatted blocks, the citation
records built so far and the set of deduplication keys already seen. -/
structure FmtState where
  formatted : List String
  sources : List Source
  seen : List String

/-- The body of the `for doc, meta in zip(...)` loop of `_format_results`,
over the remaining (document, metadata) pairs.  A raised exception in a
link lookup aborts the loop (it propagates to `execute`'s handler). -/
def formatLoop (store : VectorStore) :
    List (String × SearchMeta) → FmtState → Except String FmtState
  | [], acc => Except.ok acc
  | (doc, meta) :: rest, acc =>
    let course_title := meta.course_title.getD "unknown"
    let lesson_num := meta.lesson_number
    let header := headerOf course_title lesson_num
    let key := sourceKey course_title lesson_num
    if key ∈ acc.seen then
      formatLoop store rest
        { formatted := acc.formatted ++ [header ++ "\n" ++ doc]
          sources := acc.sources
          seen := acc.seen }
    else
      match store.get_course_link course_title with
      | Except.error e => Except.error e
      | Except.ok course_link =>
        match lesson_num with
        | none =>
          let src : Source :=
            { course_title := course_title
              course_link := course_link
              lesson_number := none
              lesson_title := none
              lesson_link := none
              citation_number := acc.sources.length + 1 }
          formatLoop store rest
            { formatted := acc.formatted ++ [header ++ "\n" ++ doc]
              sources := acc.sources ++ [src]
              seen := key :: acc.seen }
        | some n =>
          match store.get_lesson_link course_title n with
          | Except.error e => Except.error e
          | Except.ok lesson_link =>
            let src : Source :=
              { course_title := course_title
                course_link := course_link
                lesson_number := some n
                lesson_title := get_lesson_title store course_title n
                lesson_link := lesson_link
                citation_number := acc.sources.length + 1 }
            formatLoop store rest
              { formatted := acc.formatted ++ [header ++ "\n" ++ doc]
                sources := acc.sources ++ [src]
                seen := key :: acc.seen }

/-- `CourseSearchTool._format_results`: runs the formatting loop from the
empty state and joins the blocks with a blank line; returns the formatted
text together with the newly built citation list that the Python code
assigns to `self.last_sources`. -/
def format_results (store : VectorStore) (results : SearchResults) :
    Except String (String × List Source) :=
  match formatLoop store (results.documents.zip results.metadata) ⟨[], [], []⟩ with
  | Except.error e => Except.error e
  | Except.ok acc => Except.ok (String.intercalate "\n\n" acc.formatted, acc.sources)

/-- The `filter_info` string built on the empty-result path of `execute`:
each filter is reported only when Python finds the argument truthy
(a non-empty `course_name`, a nonzero `lesson_number`). -/
def filterInfo (course_name : Option String) (lesson_number : Option Int) : String :=
  (match course_name with
   | some c => if c = "" then "" else " in course '" ++ c ++ "'"
   | none => "") ++
  (match lesson_number with
   | some n => if n = 0 then "" else " in lesson " ++ intStr n
   | none => "")

/-- `CourseSearchTool.execute`: searches the backend and dispatches on the
result set (raised exception, truthy error string, empty set, formatting);
the first component is the returned text, the second the value of the
`last_sources` attribute after the call (`last_sources` is the value
before the call, reassigned only by a completed `_format_results`). -/
def execute (store : VectorStore) (last_sources : List Source) (query : String)
    (course_name : Option String) (lesson_number : Option Int) : String × List Source :=
  match store.search query course_name lesson_number with
  | Except.error e => ("Search tool error: " ++ e, last_sources)
  | Except.ok results =>
    if pyTruthyStr results.error then
      (results.error.getD "", last_sources)
    else if results.is_empty then
      ("No relevant content found" ++ filterInfo course_name lesson_number ++ ".", last_sources)
    else
      match format_results store results with
      | Except.ok p => p
      | Except.error e => ("Search tool error: " ++ e, last_sources)

end CourseSearchTool

/-! ## CourseOutlineTool

The outline-lookup tool (`CourseOutlineTool` in `backend/search_tools.py`).
Its `execute` never reads or writes the `last_sources` attribute, so it is a
pure function of the backend and the course name; `step` exposes the
state-passing view used to reason about the citation accumulator.
-/

namespace CourseOutlineTool

/-- The sort key `x.get('lesson_number', 0)` used by `_format_outline`. -/
def sortKey (l : LessonDict) : Int :=
  l.lesson_number.getD 0

/-- One rendered lesson line of `_format_outline`:
`  <number>. <title>` (a missing number renders as `?`, a missing title as
`Untitled`), with ` - <link>` appended when the lesson link is truthy. -/
def renderLesson (l : LessonDict) : String :=
  let line := "  " ++
    (match l.lesson_number with
     | some n => intStr n
     | none => "?") ++ ". " ++ l.lesson_title.getD "Untitled"
  match l.lesson_link with
  | some lk => if lk = "" then line else line ++ " - " ++ lk
  | none => line

/-- `CourseOutlineTool._format_outline`: header lines (title, then link and
instructor when truthy and non-placeholder), a lesson-count line, and one
line per lesson after a stable ascending sort on `sortKey`.  Python's
`sorted` is a stable sort; `List.insertionSort` on a total preorder is the
same stable sort. -/
def format_outline (title course_link instructor : String) (lessons : List LessonDict) :
    String :=
  let output :=
    ["Course: " ++ title] ++
    (if course_link ≠ "" ∧ course_link ≠ "No link available"
      then ["Link: " ++ course_link] else []) ++
    (if instructor ≠ "" ∧ instructor ≠ "Unknown"
      then ["Instructor: " ++ instructor] else []) ++
    ["\nLessons (" ++ natStr lessons.length ++ " total):"]
  let sorted_lessons := List.insertionSort (fun a b => sortKey a ≤ sortKey b) lessons
  String.intercalate "\n" (output ++ sorted_lessons.map renderLesson)

/-- `CourseOutlineTool.execute`: resolves the course name, fetches and parses
the catalog metadata and renders the outline; every failure is returned as
text (a raised backend exception via the generic handler, a
`json.JSONDecodeError` via its dedicated handler naming the input course
name). -/
def execute (store : VectorStore) (course_name : String) : String :=
  match store.resolve_course_name course_name with
  | Except.error e => "Error retrieving course outline: " ++ e
  | Except.ok resolved =>
    if pyTruthyStr resolved = false then
      "No course found matching '" ++ course_name ++
        "'. Please try a different course name or check available courses."
    else
      let course_title := resolved.getD ""
      match store.course_catalog_get course_title with
      | Except.error e => "Error retrieving course outline: " ++ e
      | Except.ok [] => "Course '" ++ course_title ++ "' exists but has no metadata available."
      | Except.ok (metadata :: _) =>
        let course_link := metadata.course_link.getD "No link available"
        let instructor := metadata.instructor.getD "Unknown"
        if pyTruthyStr metadata.lessons_json = false then
          "Course '" ++ course_title ++ "' has no lessons information available."
        else
          match store.json_loads (metadata.lessons_json.getD "") with
          | Except.error e =>
            "Error parsing lessons data for course '" ++ course_name ++ "': " ++ e
          | Except.ok lessons =>
            if lessons.isEmpty then
              "Course '" ++ course_title ++ "' has an empty lessons list."
            else
              format_outline course_title course_link instructor lessons

/-- One call of `CourseOutlineTool.execute` viewed as a transition on the
tool's `last_sources` attribute: the method never mentions the attribute,
so the state passes through unchanged. -/
def step (store : VectorStore) (last_sources : List Source) (course_name : String) :
    String × List Source :=
  (execute store course_name, last_sources)

/-- The `last_sources` attribute after a sequence of `execute` calls
(each with its own backend and argument), starting from a given value. -/
def runCalls (st : List Source) : List (VectorStore × String) → List Source
  | [] => st
  | (store, name) :: calls => runCalls (step store st name).2 calls

end CourseOutlineTool

/-! ## ToolManager

The tool registry/dispatcher (`ToolManager` in `backend/search_tools.py`).
Python's insertion-ordered `dict` is embedded as an association list with
insert-or-replace-in-place semantics.  A registered tool is reduced to the
three features the manager reads: the `name` of its tool definition, its
`execute` method (pure text here: the manager-level claims do not read the
dispatched tool's state) and its `last_sources` attribute (`none` models a
tool without the attribute, for the manager's `hasattr` test).
-/

/-- The keyword arguments a dispatched tool call can carry (the union of the
two tools' parameters); a `none` field models an omitted argument. -/
structure ToolArgs where
  query : Option String
  course_name : Option String
  lesson_number : Option Int

/-- A tool as the registry sees it. -/
structure RegisteredTool where
  definition_name : Option String
  execute : ToolArgs → String
  last_sources : Option (List Source)

/-- Whether the manager's truthiness test
`hasattr(tool, 'last_sources') and tool.last_sources` passes. -/
def holdsSources (t : RegisteredTool) : Bool :=
  match t.last_sources with
  | some (_ :: _) => true
  | _ => false

namespace ToolManager

/-- Assignment `self.tools[name] = tool` on an insertion-ordered dict:
replace in place when the key exists, append otherwise. -/
def insertTool : List (String × RegisteredTool) → String → RegisteredTool →
    List (String × RegisteredTool)
  | [], n, t => [(n, t)]
  | (k, u) :: rest, n, t =>
    if k = n then (n, t) :: rest else (k, u) :: insertTool rest n t

/-- `ToolManager.register_tool`: reads the name from the tool definition and
raises `ValueError` when it is falsy (absent or empty); otherwise stores the
tool under that name. -/
def register_tool (tools : List (String × RegisteredTool)) (t : RegisteredTool) :
    Except String (List (String × RegisteredTool)) :=
  if pyTruthyStr t.definition_name = false then
    Except.error "Tool must have a 'name' in its definition"
  else
    Except.ok (insertTool tools (t.definition_name.getD "") t)

/-- `ToolManager.execute_tool`: raises `ValueError` naming the requested tool
when it is not registered, otherwise returns the tool's `execute` result
verbatim. -/
def execute_tool (tools : List (String × RegisteredTool)) (tool_name : String)
    (args : ToolArgs) : Except String String :=
  match tools.lookup tool_name with
  | none => Except.error ("Tool '" ++ tool_name ++ "' not found")
  | some t => Except.ok (t.execute args)

/-- `ToolManager.get_last_sources`: scans the registered tools in
registration order; the first one passing the
`hasattr(tool, 'last_sources') and tool.last_sources` test has its list
copied out and reset to `[]`, and the scan stops there; when none passes,
returns `[]`.  The result pairs the returned citation list with the
registry after the call. -/
def get_last_sources : List (String × RegisteredTool) →
    List Source × List (String × RegisteredTool)
  | [] => ([], [])
  | (n, t) :: rest =>
    match t.last_sources with
    | some (s :: ss) => (s :: ss, (n, { t with last_sources := some [] }) :: rest)
    | _ =>
      let r := get_last_sources rest
      (r.1, (n, t) :: r.2)

end ToolManager

/-! ## Spec-side descriptions

Pure descriptions of what the formatting loop builds, used to state the
claims: the (course title, lesson number) pair of a metadata entry or of a
citation record, first-seen deduplication of a pair sequence, and the
per-record link facts.
-/

/-- The (course title, lesson number) pair a metadata entry denotes
(a missing course title reads as `unknown`, as in the loop). -/
def metaPair (m : SearchMeta) : String × Option Int :=
  (m.course_title.getD "unknown", m.lesson_number)

/-- The (course title, lesson number) pair of a citation record. -/
def sourcePair (s : Source) : String × Option Int :=
  (s.course_title, s.lesson_number)

/-- The pair sequence of a result set, one pair per formatted document
(the loop runs over `zip(documents, metadata)`). -/
def resultPairs (rs : SearchResults) : List (String × Option Int) :=
  (rs.documents.zip rs.metadata).map fun it => metaPair it.2

/-- The deduplication key of a pair. -/
def pairKey (p : String × Option Int) : String :=
  CourseSearchTool.sourceKey p.1 p.2

/-- The pairs whose string key is not yet in `seen`, each kept at its first
occurrence (the loop's deduplication, phrased on pairs and string keys). -/
def keyDedupFrom (seen : List String) : List (String × Option Int) → List (String × Option Int)
  | [] => []
  | p :: ps =>
    if pairKey p ∈ seen then keyDedupFrom seen ps
    else p :: keyDedupFrom (pairKey p :: seen) ps

/-- First-seen deduplication of a pair sequence, relative to pairs already
seen: pure pair equality, no string keys. -/
def pairDedupFrom (seen : List (String × Option Int)) :
    List (String × Option Int) → List (String × Option Int)
  | [] => []
  | p :: ps =>
    if p ∈ seen then pairDedupFrom seen ps
    else p :: pairDedupFrom (p :: seen) ps

/-- The distinct pairs of a sequence in first-seen order. -/
def firstSeenPairs (ps : List (String × Option Int)) : List (String × Option Int) :=
  pairDedupFrom [] ps

/-- The text block one (document, metadata) item contributes. -/
def blockOf (it : String × SearchMeta) : String :=
  CourseSearchTool.headerOf (it.2.course_title.getD "unknown") it.2.lesson_number ++ "\n" ++ it.1

/-- The link and title facts of one citation record built by the loop: the
course link is the backend's answer for the record's course title, and the
lesson fields are absent or looked up according to the record's lesson
number. -/
def sourceLinksOk (store : VectorStore) (s : Source) : Prop :=
  store.get_course_link s.course_title = Except.ok s.course_link ∧
  ((s.lesson_number = none ∧ s.lesson_title = none ∧ s.lesson_link = none) ∨
   (∃ n, s.lesson_number = some n ∧
     store.get_lesson_link s.course_title n = Except.ok s.lesson_link ∧
     s.lesson_title = CourseSearchTool.get_lesson_title store s.course_title n))

/-! ## Concrete instances

Closed backends, citation records, tools and result sets used by the
witnesses and refutations below.
-/

/-- A backend whose every call succeeds with an empty answer. -/
def storeNoop : VectorStore :=
  ⟨fun _ _ _ => Except.ok ⟨[], [], none⟩, fun _ => Except.ok none, fun _ _ => Except.ok none,
   fun _ => Except.ok none, fun _ => Except.ok [], fun _ => Except.ok []⟩

/-- A backend whose search succeeds with an error-carrying result set. -/
def storeErrorResult : VectorStore :=
  { storeNoop with search := fun _ _ _ => Except.ok ⟨[], [], some "boom"⟩ }

/-- A citation record for course `A`. -/
def srcA : Source := ⟨"A", none, none, none, none, 1⟩

/-- A citation record for course `B`. -/
def srcB : Source := ⟨"B", none, none, none, none, 1⟩

/-- A registered tool holding the citation `srcA`. -/
def toolOne : RegisteredTool := ⟨some "one", fun _ => "1", some [srcA]⟩

/-- A registered tool holding the citation `srcB`. -/
def toolTwo : RegisteredTool := ⟨some "two", fun _ => "2", some [srcB]⟩

/-- A registered tool holding no citations. -/
def toolEmpty : RegisteredTool := ⟨some "zero", fun _ => "0", some []⟩

/-- A registry in which both registered tools hold accumulated citations. -/
def twoToolReg : List (String × RegisteredTool) := [("one", toolOne), ("two", toolTwo)]

/-- A result set with two documents sharing one (course, lesson) pair. -/
def rsTwoDocs : SearchResults :=
  ⟨["d1", "d2"], [⟨some "A", none⟩, ⟨some "A", none⟩], none⟩

/-- A result set with one document in lesson 0 of course `A`. -/
def rsLessonZero : SearchResults :=
  ⟨["d"], [⟨some "A", some 0⟩], none⟩

/-- Lesson 0, titled First. -/
def les0 : LessonDict := ⟨some 0, some "First", none⟩

/-- Lesson 1, titled Second. -/
def les1 : LessonDict := ⟨some 1, some "Second", none⟩

/-- Lesson 2, titled Third. -/
def les2 : LessonDict := ⟨some 2, some "Third", none⟩

/-- A lesson numbered 0 titled A (a duplicate sort key with `lesDupB`). -/
def lesDupA : LessonDict := ⟨some 0, some "A", none⟩

/-- A lesson numbered 0 titled B (a duplicate sort key with `lesDupA`). -/
def lesDupB : LessonDict := ⟨some 0, some "B", none⟩

/-! ## Rendering lemmas

Python's `str` rendering of an `int` (and of `None`) is injective and
avoids the characters the deduplication key and the refutations below rely
on; hence the key `f"{course_title}_{lesson_num}"` identifies the
(course title, lesson number) pair exactly.
-/

/-- Every character of `natStr n` is a decimal digit character. -/
theorem natStr_chars {n : Nat} {c : Char} (hc : c ∈ (natStr n).data) :
    ∃ d, d < 10 ∧ c = Nat.digitChar d := by
  unfold natStr at hc
  split at hc
  · have : c = '0' := by simpa using hc
    exact ⟨0, by norm_num, by simp [this, Nat.digitChar]⟩
  · simp only [String.mk, List.mem_reverse, List.mem_map] at hc
    obtain ⟨d, hd, rfl⟩ := hc
    exact ⟨d, Nat.digits_lt_base (by norm_num) hd, rfl⟩

/-- `Nat.digitChar` is injective below 10. -/
theorem digitChar_inj : ∀ a < 10, ∀ b < 10, Nat.digitChar a = Nat.digitChar b → a = b := by
  decide

/-- The digit characters below 10 avoid underscore, minus and `N`. -/
theorem digitChar_avoids :
    ∀ d < 10, Nat.digitChar d ≠ '_' ∧ Nat.digitChar d ≠ '-' ∧ Nat.digitChar d ≠ 'N' := by
  decide

/-- Mapping `Nat.digitChar` over digit lists is injective. -/
theorem mapDigitChar_inj : ∀ (l₁ l₂ : List Nat), (∀ d ∈ l₁, d < 10) → (∀ d ∈ l₂, d < 10) →
    l₁.map Nat.digitChar = l₂.map Nat.digitChar → l₁ = l₂
  | [], [], _, _, _ => rfl
  | a :: l₁, b :: l₂, h₁, h₂, h => by
    simp only [List.map_cons, List.cons.injEq] at h
    have : a = b := digitChar_inj a (h₁ a (by simp)) b (h₂ b (by simp)) h.1
    rw [this, mapDigitChar_inj l₁ l₂ (fun d hd => h₁ d (by simp [hd]))
      (fun d hd => h₂ d (by simp [hd])) h.2]

/-- `natStr` is injective. -/
theorem natStr_inj {a b : Nat} (h : natStr a = natStr b) : a = b := by
  unfold natStr at h
  split at h <;> split at h
  · omega
  · exfalso
    have h2 : ((Nat.digits 10 b).map Nat.digitChar).reverse = ['0'] := by
      simpa using (congrArg String.data h).symm
    have h3 : (Nat.digits 10 b).map Nat.digitChar = ['0'] := by
      simpa using congrArg List.reverse h2
    have h4 : Nat.digits 10 b = [0] := by
      apply mapDigitChar_inj (Nat.digits 10 b) [0]
        (fun d hd => Nat.digits_lt_base (by norm_num) hd) (by norm_num)
      simpa [Nat.digitChar] using h3
    have h5 := Nat.ofDigits_digits 10 b
    rw [h4] at h5
    simp [Nat.ofDigits] at h5
    omega
  · exfalso
    have h2 : ((Nat.digits 10 a).map Nat.digitChar).reverse = ['0'] := by
      simpa using congrArg String.data h
    have h3 : (Nat.digits 10 a).map Nat.digitChar = ['0'] := by
      simpa using congrArg List.reverse h2
    have h4 : Nat.digits 10 a = [0] := by
      apply mapDigitChar_inj (Nat.digits 10 a) [0]
        (fun d hd => Nat.digits_lt_base (by norm_num) hd) (by norm_num)
      simpa [Nat.digitChar] using h3
    have h5 := Nat.ofDigits_digits 10 a
    rw [h4] at h5
    simp [Nat.ofDigits] at h5
    omega
  · have hdata := congrArg String.data h
    simp only [String.mk] at hdata
    have h3 : (Nat.digits 10 a).map Nat.digitChar = (Nat.digits 10 b).map Nat.digitChar := by
      simpa using congrArg List.reverse hdata
    have h4 := mapDigitChar_inj _ _
      (fun d hd => Nat.digits_lt_base (by norm_num) hd)
      (fun d hd => Nat.digits_lt_base (by norm_num) hd) h3
    have h5 := congrArg (Nat.ofDigits 10) h4
    rwa [Nat.ofDigits_digits, Nat.ofDigits_digits] at h5

/-- Two strings with the same character data are equal. -/
theorem string_data_inj {s t : String} (h : s.data = t.data) : s = t := by
  cases s; cases t; exact congrArg String.mk h

/-- `natStr` never produces an underscore. -/
theorem natStr_no_underscore (n : Nat) : '_' ∉ (natStr n).data := by
  intro h
  obtain ⟨d, hd, hc⟩ := natStr_chars h
  exact (digitChar_avoids d hd).1 hc.symm

/-- `intStr` never produces an underscore. -/
theorem intStr_no_underscore (i : Int) : '_' ∉ (intStr i).data := by
  intro h
  cases i with
  | ofNat n => exact natStr_no_underscore n h
  | negSucc n =>
    rw [intStr, String.data_append] at h
    rcases List.mem_append.mp h with h' | h'
    · simp at h'
    · exact natStr_no_underscore (n + 1) h'

/-- `intStr` is injective. -/
theorem intStr_inj {a b : Int} (h : intStr a = intStr b) : a = b := by
  cases a with
  | ofNat n =>
    cases b with
    | ofNat m => exact congrArg Int.ofNat (natStr_inj h)
    | negSucc m =>
      exfalso
      have hd := congrArg String.data h
      rw [intStr, intStr, String.data_append] at hd
      have : '-' ∈ (natStr n).data := by
        rw [hd]; simp
      obtain ⟨d, hlt, hc⟩ := natStr_chars this
      exact (digitChar_avoids d hlt).2.1 hc.symm
  | negSucc n =>
    cases b with
    | ofNat m =>
      exfalso
      have hd := congrArg String.data h
      rw [intStr, intStr, String.data_append] at hd
      have : '-' ∈ (natStr m).data := by
        rw [← hd]; simp
      obtain ⟨d, hlt, hc⟩ := natStr_chars this
      exact (digitChar_avoids d hlt).2.1 hc.symm
    | negSucc m =>
      have hd := congrArg String.data h
      rw [intStr, intStr, String.data_append, String.data_append] at hd
      simp only [List.append_cancel_left_eq] at hd
      have hsucc : n + 1 = m + 1 := natStr_inj (string_data_inj
        (by simpa using hd : (natStr (n + 1)).data = (natStr (m + 1)).data))
      have hnm : n = m := by omega
      rw [hnm]

/-- `intStr` never renders as the text `None`. -/
theorem intStr_ne_None (i : Int) : intStr i ≠ "None" := by
  intro h
  have hd := congrArg String.data h
  cases i with
  | ofNat n =>
    have : 'N' ∈ (natStr n).data := by
      rw [intStr] at hd; rw [hd]; decide
    obtain ⟨d, hlt, hc⟩ := natStr_chars this
    exact (digitChar_avoids d hlt).2.2 hc.symm
  | negSucc n =>
    rw [intStr, String.data_append] at hd
    have : ("-".data ++ (natStr (n + 1)).data).head? = some 'N' := by rw [hd]; rfl
    simp at this

/-- The f-string rendering of an optional `int` is injective. -/
theorem pyOptIntStr_inj {a b : Option Int} (h : pyOptIntStr a = pyOptIntStr b) : a = b := by
  cases a with
  | none =>
    cases b with
    | none => rfl
    | some m =>
      exfalso
      exact intStr_ne_None m (by simpa [pyOptIntStr] using h.symm)
  | some n =>
    cases b with
    | none =>
      exfalso
      exact intStr_ne_None n (by simpa [pyOptIntStr] using h)
    | some m => exact congrArg Option.some (intStr_inj h)

/-- The f-string rendering of an optional `int` never holds an underscore. -/
theorem pyOptIntStr_no_underscore (l : Option Int) : '_' ∉ (pyOptIntStr l).data := by
  cases l with
  | none => decide
  | some n => exact intStr_no_underscore n

/-- Splitting at an underscore is unambiguous when neither right part holds
an underscore. -/
theorem append_underscore_inj : ∀ (l₁ : List Char) {r₁ : List Char} (l₂ : List Char)
    {r₂ : List Char}, '_' ∉ r₁ → '_' ∉ r₂ →
    l₁ ++ '_' :: r₁ = l₂ ++ '_' :: r₂ → l₁ = l₂ ∧ r₁ = r₂
  | [], r₁, [], r₂, _, _, h => ⟨rfl, by simpa using h⟩
  | [], r₁, c :: l₂, r₂, h₁, _, h => by
    exfalso
    simp only [List.nil_append, List.cons_append, List.cons.injEq] at h
    exact h₁ (h.2 ▸ List.mem_append.mpr (Or.inr (by simp)))
  | c :: l₁, r₁, [], r₂, _, h₂, h => by
    exfalso
    simp only [List.nil_append, List.cons_append, List.cons.injEq] at h
    exact h₂ (h.2.symm ▸ List.mem_append.mpr (Or.inr (by simp)))
  | c :: l₁, r₁, d :: l₂, r₂, h₁, h₂, h => by
    simp only [List.cons_append, List.cons.injEq] at h
    obtain ⟨hl, hr⟩ := append_underscore_inj l₁ l₂ h₁ h₂ h.2
    exact ⟨by rw [h.1, hl], hr⟩

/-- The deduplication key identifies the (course title, lesson number)
pair exactly. -/
theorem sourceKey_inj {t₁ t₂ : String} {l₁ l₂ : Option Int}
    (h : CourseSearchTool.sourceKey t₁ l₁ = CourseSearchTool.sourceKey t₂ l₂) :
    t₁ = t₂ ∧ l₁ = l₂ := by
  have hd := congrArg String.data h
  simp only [CourseSearchTool.sourceKey, String.data_append] at hd
  have h1 : t₁.data ++ '_' :: (pyOptIntStr l₁).data =
      t₂.data ++ '_' :: (pyOptIntStr l₂).data := by
    simpa using hd
  obtain ⟨ht, hs⟩ := append_underscore_inj t₁.data t₂.data
    (pyOptIntStr_no_underscore l₁) (pyOptIntStr_no_underscore l₂) h1
  exact ⟨string_data_inj ht, pyOptIntStr_inj (string_data_inj hs)⟩

/-- `pairKey` is injective. -/
theorem pairKey_inj {p q : String × Option Int} (h : pairKey p = pairKey q) : p = q := by
  obtain ⟨h₁, h₂⟩ := sourceKey_inj h
  exact Prod.ext h₁ h₂

/-- One unfolding step of `List.range'`. -/
theorem range'_cons (s n : Nat) : List.range' s (n + 1) = s :: List.range' (s + 1) n := rfl

/-- The characterization of a completed formatting loop: one text block per
remaining item, and the citation records extend the accumulator by one
record per remaining item whose key is new, in first-seen order, numbered
consecutively from the accumulator's length, each with its links looked
up. -/
theorem formatLoop_ok (store : VectorStore) :
    ∀ (items : List (String × SearchMeta)) (acc acc' : CourseSearchTool.FmtState),
    CourseSearchTool.formatLoop store items acc = Except.ok acc' →
    acc'.formatted = acc.formatted ++ items.map blockOf ∧
    ∃ news,
      acc'.sources = acc.sources ++ news ∧
      news.map sourcePair = keyDedupFrom acc.seen (items.map fun it => metaPair it.2) ∧
      news.map Source.citation_number =
        List.range' (acc.sources.length + 1) news.length ∧
      ∀ s ∈ news, sourceLinksOk store s
  | [], acc, acc', h => by
    have : acc = acc' := by
      simpa [CourseSearchTool.formatLoop] using h
    subst this
    exact ⟨by simp, [], by simp, by simp [keyDedupFrom], by simp, by simp⟩
  | (doc, meta) :: rest, acc, acc', h => by
    simp only [CourseSearchTool.formatLoop] at h
    by_cases hseen : CourseSearchTool.sourceKey (meta.course_title.getD "unknown")
        meta.lesson_number ∈ acc.seen
    · rw [if_pos hseen] at h
      obtain ⟨hf, news, hs, hp, hc, hl⟩ := formatLoop_ok store rest _ acc' h
      refine ⟨?_, news, ?_, ?_, ?_, hl⟩
      · rw [hf]; simp [blockOf, List.append_assoc]
      · simpa using hs
      · rw [hp]
        simp only [List.map_cons, keyDedupFrom]
        rw [if_pos (by simpa [pairKey, metaPair] using hseen)]
      · simpa using hc
    · rw [if_neg hseen] at h
      split at h
      next e hcl => exact absurd h (by simp)
      next course_link hcl =>
        split at h
        next hln =>
          obtain ⟨hf, news, hs, hp, hc, hl⟩ := formatLoop_ok store rest _ acc' h
          refine ⟨?_, ⟨meta.course_title.getD "unknown", course_link, none, none, none,
            acc.sources.length + 1⟩ :: news, ?_, ?_, ?_, ?_⟩
          · rw [hf]; simp [blockOf, hln, List.append_assoc]
          · rw [hs]; simp
          · simp only [List.map_cons, keyDedupFrom]
            rw [if_neg (by simpa [pairKey, metaPair, hln] using hseen)]
            refine congrArg₂ List.cons (by simp [sourcePair, metaPair, hln]) ?_
            rw [hp]
            simp [pairKey, metaPair, hln]
          · simp only [List.map_cons, List.length_cons, range'_cons]
            refine congrArg₂ List.cons rfl ?_
            rw [hc]
            simp
          · intro s hsmem
            rcases List.mem_cons.mp hsmem with hrfl | hmem
            · subst hrfl
              exact ⟨hcl, Or.inl ⟨rfl, rfl, rfl⟩⟩
            · exact hl s hmem
        next n hln =>
          split at h
          next e hll => exact absurd h (by simp)
          next lesson_link hll =>
            obtain ⟨hf, news, hs, hp, hc, hl⟩ := formatLoop_ok store rest _ acc' h
            refine ⟨?_, ⟨meta.course_title.getD "unknown", course_link, some n,
              CourseSearchTool.get_lesson_title store (meta.course_title.getD "unknown") n,
              lesson_link, acc.sources.length + 1⟩ :: news, ?_, ?_, ?_, ?_⟩
            · rw [hf]; simp [blockOf, hln, List.append_assoc]
            · rw [hs]; simp
            · simp only [List.map_cons, keyDedupFrom]
              rw [if_neg (by simpa [pairKey, metaPair, hln] using hseen)]
              refine congrArg₂ List.cons (by simp [sourcePair, metaPair, hln]) ?_
              rw [hp]
              simp [pairKey, metaPair, hln]
            · simp only [List.map_cons, List.length_cons, range'_cons]
              refine congrArg₂ List.cons rfl ?_
              rw [hc]
              simp
            · intro s hsmem
              rcases List.mem_cons.mp hsmem with hrfl | hmem
              · subst hrfl
                exact ⟨hcl, Or.inr ⟨n, rfl, hll, rfl⟩⟩
              · exact hl s hmem

/-- Deduplicating by string key is deduplicating by pair: the keys are
injective. -/
theorem keyDedupFrom_eq_pairDedupFrom :
    ∀ (ps seen : List (String × Option Int)),
    keyDedupFrom (seen.map pairKey) ps = pairDedupFrom seen ps
  | [], _ => rfl
  | p :: ps, seen => by
    simp only [keyDedupFrom, pairDedupFrom]
    by_cases hp : p ∈ seen
    · rw [if_pos (List.mem_map_of_mem _ hp), if_pos hp]
      exact keyDedupFrom_eq_pairDedupFrom ps seen
    · have hnk : pairKey p ∉ seen.map pairKey := by
        intro hmem
        obtain ⟨q, hq, hkey⟩ := List.mem_map.mp hmem
        exact hp (pairKey_inj hkey ▸ hq)
      rw [if_neg hnk, if_neg hp]
      have := keyDedupFrom_eq_pairDedupFrom ps (p :: seen)
      simp only [List.map_cons] at this
      rw [this]

/-- The characterization of a completed `_format_results` call: the text is
the blocks joined by a blank line, and the returned citation list holds
exactly one record per distinct (course title, lesson number) pair of the
result set, in first-seen order, numbered 1, 2, ... with the links looked
up per record. -/
theorem format_results_ok (store : VectorStore) (rs : SearchResults) (text : String)
    (srcs : List Source)
    (h : CourseSearchTool.format_results store rs = Except.ok (text, srcs)) :
    text = String.intercalate "\n\n" ((rs.documents.zip rs.metadata).map blockOf) ∧
    srcs.map sourcePair = firstSeenPairs (resultPairs rs) ∧
    srcs.map Source.citation_number = List.range' 1 srcs.length ∧
    ∀ s ∈ srcs, sourceLinksOk store s := by
  unfold CourseSearchTool.format_results at h
  split at h
  next e heq => exact absurd h (by simp)
  next acc heq =>
    obtain ⟨hf, news, hs, hp, hc, hl⟩ := formatLoop_ok store _ _ _ heq
    simp only [Except.ok.injEq, Prod.mk.injEq] at h
    obtain ⟨htext, hsrcs⟩ := h
    simp only [List.nil_append] at hf hs
    subst hsrcs
    subst hs
    refine ⟨by rw [← htext, hf], ?_, by simpa using hc, hl⟩
    rw [hp]
    have := keyDedupFrom_eq_pairDedupFrom (resultPairs rs) []
    simpa [resultPairs, firstSeenPairs] using this

/-! ## Claim C9: the outline tool's citation accumulator -/

/-- An `execute` sequence of the outline tool never changes the
`last_sources` attribute. -/
theorem runCalls_id : ∀ (calls : List (VectorStore × String)) (st : List Source),
    CourseOutlineTool.runCalls st calls = st
  | [], _ => rfl
  | (_, _) :: calls, st => runCalls_id calls st

/-- C9: the Outline Lookup tool never emits a Citation Record: after any
sequence of `execute` calls, with any arguments and any backend behaviour,
its citation accumulator still holds the empty list it was constructed
with. -/
theorem outline_never_emits_citations (calls : List (VectorStore × String)) :
    CourseOutlineTool.runCalls [] calls = [] :=
  runCalls_id calls []

/-! ## Claim C8: registration -/

/-- Looking up the just-inserted name finds the just-inserted tool. -/
theorem insertTool_lookup : ∀ (tools : List (String × RegisteredTool)) (n : String)
    (t : RegisteredTool), (ToolManager.insertTool tools n t).lookup n = some t
  | [], n, t => by simp [ToolManager.insertTool, List.lookup]
  | (k, u) :: rest, n, t => by
    simp only [ToolManager.insertTool]
    by_cases hk : k = n
    · rw [if_pos hk]
      simp [List.lookup]
    · rw [if_neg hk]
      have : (n == k) = false := by
        simp [Ne.symm hk]
      simp [List.lookup, this, insertTool_lookup rest n t]

/-- C8: `register_tool` raises when the tool definition's name is absent,
and registering a second tool under an already-registered name does not
raise but silently overwrites: the later tool wins for subsequent
dispatch. -/
theorem register_tool_spec :
    (∀ (tools : List (String × RegisteredTool)) (t : RegisteredTool),
      t.definition_name = none →
      ToolManager.register_tool tools t =
        Except.error "Tool must have a 'name' in its definition") ∧
    (∀ (tools : List (String × RegisteredTool)) (t₁ t₂ : RegisteredTool) (n : String)
      (args : ToolArgs), tools.lookup n = some t₁ → t₂.definition_name = some n → n ≠ "" →
      ∃ tools', ToolManager.register_tool tools t₂ = Except.ok tools' ∧
        ToolManager.execute_tool tools' n args = Except.ok (t₂.execute args)) := by
  constructor
  · intro tools t ht
    simp [ToolManager.register_tool, ht, pyTruthyStr]
  · intro tools t₁ t₂ n args _ ht₂ hn
    refine ⟨ToolManager.insertTool tools n t₂, ?_, ?_⟩
    · simp [ToolManager.register_tool, ht₂, pyTruthyStr, hn]
    · simp [ToolManager.execute_tool, insertTool_lookup]

/-- Witness for C8: a nameless tool is rejected; re-registering the name
`t` replaces the earlier tool, and dispatch runs the newer one. -/
theorem register_tool_spec_witness :
    ToolManager.register_tool []
        ⟨none, fun _ => "r", none⟩ =
      Except.error "Tool must have a 'name' in its definition" ∧
    ∃ tools',
      ToolManager.register_tool [("t", ⟨some "t", fun _ => "one", none⟩)]
          ⟨some "t", fun _ => "two", none⟩ = Except.ok tools' ∧
      ToolManager.execute_tool tools' "t" ⟨none, none, none⟩ = Except.ok "two" :=
  ⟨register_tool_spec.1 [] ⟨none, fun _ => "r", none⟩ rfl,
   register_tool_spec.2 [("t", ⟨some "t", fun _ => "one", none⟩)]
     ⟨some "t", fun _ => "one", none⟩ ⟨some "t", fun _ => "two", none⟩ "t"
     ⟨none, none, none⟩ rfl rfl (by decide)⟩

/-! ## Claim C7: dispatch -/

/-- C7: dispatching an unregistered name raises an error naming the
requested tool; dispatching a registered name returns the tool's `execute`
text verbatim; and the two retrieval tools absorb internal backend
failures into descriptive strings instead of raising through this
boundary. -/
theorem execute_tool_spec :
    (∀ (tools : List (String × RegisteredTool)) (name : String) (args : ToolArgs),
      tools.lookup name = none →
      ∃ pre post, ToolManager.execute_tool tools name args =
        Except.error (pre ++ name ++ post)) ∧
    (∀ (tools : List (String × RegisteredTool)) (name : String) (args : ToolArgs)
      (t : RegisteredTool), tools.lookup name = some t →
      ToolManager.execute_tool tools name args = Except.ok (t.execute args)) ∧
    (∀ (store : VectorStore) (last : List Source) (query : String) (cn : Option String)
      (ln : Option Int) (e : String), store.search query cn ln = Except.error e →
      CourseSearchTool.execute store last query cn ln = ("Search tool error: " ++ e, last)) ∧
    (∀ (store : VectorStore) (course_name e : String),
      store.resolve_course_name course_name = Except.error e →
      CourseOutlineTool.execute store course_name =
        "Error retrieving course outline: " ++ e) := by
  refine ⟨?_, ?_, ?_, ?_⟩
  · intro tools name args h
    exact ⟨"Tool '", "' not found", by simp [ToolManager.execute_tool, h]⟩
  · intro tools name args t h
    simp [ToolManager.execute_tool, h]
  · intro store last query cn ln e h
    simp [CourseSearchTool.execute, h]
  · intro store course_name e h
    simp [CourseOutlineTool.execute, h]

/-- Witness for C7: an empty registry rejects the name `ghost` with a
message naming it; a one-tool registry dispatches verbatim; both retrieval
tools turn a raising backend into a descriptive string result. -/
theorem execute_tool_spec_witness :
    (∃ pre post, ToolManager.execute_tool [] "ghost" ⟨none, none, none⟩ =
      Except.error (pre ++ "ghost" ++ post)) ∧
    ToolManager.execute_tool [("t", ⟨some "t", fun _ => "out", none⟩)] "t"
      ⟨none, none, none⟩ = Except.ok "out" ∧
    CourseSearchTool.execute
      ⟨fun _ _ _ => Except.error "down", fun _ => Except.ok none, fun _ _ => Except.ok none,
       fun _ => Except.ok none, fun _ => Except.ok [], fun _ => Except.ok []⟩
      [] "q" none none = ("Search tool error: down", []) ∧
    CourseOutlineTool.execute
      ⟨fun _ _ _ => Except.ok ⟨[], [], none⟩, fun _ => Except.ok none, fun _ _ => Except.ok none,
       fun _ => Except.error "down", fun _ => Except.ok [], fun _ => Except.ok []⟩
      "MCP" = "Error retrieving course outline: down" :=
  ⟨execute_tool_spec.1 [] "ghost" ⟨none, none, none⟩ rfl,
   execute_tool_spec.2.1 [("t", ⟨some "t", fun _ => "out", none⟩)] "t" ⟨none, none, none⟩
     ⟨some "t", fun _ => "out", none⟩ rfl,
   execute_tool_spec.2.2.1 _ [] "q" none none "down" rfl,
   execute_tool_spec.2.2.2 _ "MCP" "down" rfl⟩

/-! ## Claim C2: error-carrying result sets -/

/-- Amended C2: when the backend result set carries a non-empty error
string, the tool's result is that string exactly and no new citation
records are produced — the accumulated citation list is left unchanged
(it is not cleared). -/
theorem error_result_returned_verbatim (store : VectorStore) (last : List Source)
    (q : String) (cn : Option String) (ln : Option Int) (rs : SearchResults) (e : String)
    (hs : store.search q cn ln = Except.ok rs) (he : rs.error = some e) (hne : e ≠ "") :
    CourseSearchTool.execute store last q cn ln = (e, last) := by
  simp [CourseSearchTool.execute, hs, he, pyTruthyStr, hne]

/-- C2 as stated is false: an error-carrying invocation does not leave the
accumulated citation list empty — a citation from an earlier invocation
survives it. -/
theorem error_result_keeps_old_citations :
    CourseSearchTool.execute storeErrorResult [srcA] "q" none none = ("boom", [srcA]) ∧
    [srcA] ≠ ([] : List Source) :=
  ⟨rfl, by decide⟩

/-- Witness for the amended C2. -/
theorem error_result_returned_verbatim_witness :
    storeErrorResult.search "q" none none = Except.ok ⟨[], [], some "boom"⟩ ∧
    CourseSearchTool.execute storeErrorResult [srcA] "q" none none = ("boom", [srcA]) :=
  ⟨rfl, error_result_returned_verbatim storeErrorResult [srcA] "q" none none
    ⟨[], [], some "boom"⟩ "boom" rfl rfl (by decide)⟩

/-! ## Claim C3: empty result sets -/

/-- Amended C3: on an empty, error-free result set the tool emits no
citation record (the accumulator is untouched) and reports the course
filter when the `course_name` argument is truthy (non-empty) and the
lesson filter when the `lesson_number` argument is truthy (nonzero);
`lesson_number` 0 yields the very message of an absent lesson argument. -/
theorem empty_result_message_spec (store : VectorStore) (last : List Source) (q : String)
    (cn : Option String) (ln : Option Int) (rs : SearchResults)
    (hs : store.search q cn ln = Except.ok rs) (he : rs.error = none)
    (hd : rs.documents = []) :
    (CourseSearchTool.execute store last q cn ln).2 = last ∧
    (∀ c, cn = some c → c ≠ "" →
      ∃ post, (CourseSearchTool.execute store last q cn ln).1 =
        "No relevant content found" ++ (" in course '" ++ c ++ "'") ++ post) ∧
    (∀ n, ln = some n → n ≠ 0 →
      ∃ pre, (CourseSearchTool.execute store last q cn ln).1 =
        pre ++ (" in lesson " ++ intStr n) ++ ".") ∧
    (ln = some 0 → (CourseSearchTool.execute store last q cn ln).1 =
      "No relevant content found" ++ CourseSearchTool.filterInfo cn none ++ ".") := by
  have hex : CourseSearchTool.execute store last q cn ln =
      ("No relevant content found" ++ CourseSearchTool.filterInfo cn ln ++ ".", last) := by
    simp [CourseSearchTool.execute, hs, he, pyTruthyStr, SearchResults.is_empty, hd]
  refine ⟨by rw [hex], ?_, ?_, ?_⟩
  · intro c hcn hc
    subst hcn
    refine ⟨CourseSearchTool.filterInfo none ln ++ ".", ?_⟩
    rw [hex]
    apply string_data_inj
    simp [CourseSearchTool.filterInfo, hc, String.data_append]
  · intro n hln hn
    subst hln
    refine ⟨"No relevant content found" ++ CourseSearchTool.filterInfo cn none, ?_⟩
    rw [hex]
    apply string_data_inj
    simp [CourseSearchTool.filterInfo, hn, String.data_append]
  · intro hln
    subst hln
    rw [hex]
    apply string_data_inj
    simp [CourseSearchTool.filterInfo, String.data_append]

/-- C3 as stated is false: with `lesson_number` 0 and an empty result set,
the returned message is the bare no-filter message — it does not report
the lesson constraint (its text holds no character `0` at all). -/
theorem lesson_zero_filter_not_reported :
    CourseSearchTool.execute storeNoop [] "q" none (some 0) =
      ("No relevant content found.", []) ∧
    '0' ∉ ("No relevant content found." : String).data :=
  ⟨by decide, by decide⟩

/-- Witness for the amended C3. -/
theorem empty_result_message_spec_witness :
    storeNoop.search "q" (some "MCP") (some 0) = Except.ok ⟨[], [], none⟩ ∧
    (CourseSearchTool.execute storeNoop [] "q" (some "MCP") (some 0)).1 =
      "No relevant content found" ++ CourseSearchTool.filterInfo (some "MCP") none ++ "." :=
  ⟨rfl, (empty_result_message_spec storeNoop [] "q" (some "MCP") (some 0)
    ⟨[], [], none⟩ rfl rfl rfl).2.2.2 rfl⟩

/-! ## Claims C1 and C4: draining the citation accumulators -/

/-- When no registered tool passes the truthiness test, a drain returns the
empty list and leaves the registry unchanged. -/
theorem gls_no_holder : ∀ (tools : List (String × RegisteredTool)),
    (∀ p ∈ tools, holdsSources p.2 = false) →
    ToolManager.get_last_sources tools = ([], tools)
  | [], _ => rfl
  | (n, t) :: rest, h => by
    have ht : holdsSources t = false := h (n, t) (by simp)
    have hrest := gls_no_holder rest (fun p hp => h p (by simp [hp]))
    rcases hl : t.last_sources with _ | l
    · simp [ToolManager.get_last_sources, hl, hrest]
    · cases l with
      | nil => simp [ToolManager.get_last_sources, hl, hrest]
      | cons s ss =>
        rw [holdsSources, hl] at ht
        simp at ht

/-- A drain returns the list of the first registered tool passing the
truthiness test, clears that tool alone and stops the scan there. -/
theorem gls_first_holder : ∀ (pre : List (String × RegisteredTool)) (n : String)
    (t : RegisteredTool) (post : List (String × RegisteredTool)) (l : List Source),
    (∀ p ∈ pre, holdsSources p.2 = false) → t.last_sources = some l → l ≠ [] →
    ToolManager.get_last_sources (pre ++ (n, t) :: post) =
      (l, pre ++ (n, { t with last_sources := some [] }) :: post)
  | [], n, t, post, l, _, hl, hne => by
    cases l with
    | nil => exact absurd rfl hne
    | cons s ss => simp [ToolManager.get_last_sources, hl]
  | (k, u) :: pre, n, t, post, l, hpre, hl, hne => by
    have hu : holdsSources u = false := hpre (k, u) (by simp)
    have hrec := gls_first_holder pre n t post l (fun p hp => hpre p (by simp [hp])) hl hne
    rcases hul : u.last_sources with _ | ul
    · simp [ToolManager.get_last_sources, hul, hrec]
    · cases ul with
      | nil => simp [ToolManager.get_last_sources, hul, hrec]
      | cons s ss =>
        rw [holdsSources, hul] at hu
        simp at hu

/-- Amended C1: a single drain call returns the accumulated citations of the
first registered tool (in registration order) whose accumulator is
non-empty, and clears that tool's accumulator alone — later tools keep
theirs; when no tool holds citations it returns the empty list and changes
nothing. -/
theorem get_last_sources_spec :
    (∀ (pre post : List (String × RegisteredTool)) (n : String) (t : RegisteredTool)
      (l : List Source),
      (∀ p ∈ pre, holdsSources p.2 = false) → t.last_sources = some l → l ≠ [] →
      ToolManager.get_last_sources (pre ++ (n, t) :: post) =
        (l, pre ++ (n, { t with last_sources := some [] }) :: post)) ∧
    (∀ tools, (∀ p ∈ tools, holdsSources p.2 = false) →
      ToolManager.get_last_sources tools = ([], tools)) :=
  ⟨fun pre post n t l h1 h2 h3 => gls_first_holder pre n t post l h1 h2 h3,
   fun tools h => gls_no_holder tools h⟩

/-- C1 as stated is false: with two registered tools both holding
citations, one drain returns only the first tool's record (not the
concatenation) and leaves the second tool's accumulator non-empty. -/
theorem drain_returns_first_holder_only :
    (ToolManager.get_last_sources twoToolReg).1 = [srcA] ∧
    (ToolManager.get_last_sources twoToolReg).1 ≠ [srcA, srcB] ∧
    ((ToolManager.get_last_sources twoToolReg).2.map fun p => p.2.last_sources) =
      [some [], some [srcB]] ∧
    (some [srcB] : Option (List Source)) ≠ some [] :=
  ⟨rfl, by decide, rfl, by decide⟩

/-- Witness for the amended C1. -/
theorem get_last_sources_spec_witness :
    ToolManager.get_last_sources [("zero", toolEmpty), ("one", toolOne)] =
      ([srcA], [("zero", toolEmpty), ("one", { toolOne with last_sources := some [] })]) ∧
    ToolManager.get_last_sources [("zero", toolEmpty)] = ([], [("zero", toolEmpty)]) :=
  ⟨get_last_sources_spec.1 [("zero", toolEmpty)] [] "one" toolOne [srcA]
    (by decide) rfl (by decide),
   get_last_sources_spec.2 [("zero", toolEmpty)] (by decide)⟩

/-- Amended C4: when exactly one registered tool holds accumulated
citations, draining twice in a row with no dispatch in between yields a
non-empty list and then the empty list. -/
theorem drain_twice_single_holder (pre post : List (String × RegisteredTool)) (n : String)
    (t : RegisteredTool) (l : List Source)
    (hpre : ∀ p ∈ pre, holdsSources p.2 = false)
    (hpost : ∀ p ∈ post, holdsSources p.2 = false)
    (hl : t.last_sources = some l) (hne : l ≠ []) :
    (ToolManager.get_last_sources (pre ++ (n, t) :: post)).1 ≠ [] ∧
    (ToolManager.get_last_sources
      (ToolManager.get_last_sources (pre ++ (n, t) :: post)).2).1 = [] := by
  have h1 := gls_first_holder pre n t post l hpre hl hne
  rw [h1]
  refine ⟨hne, ?_⟩
  have h2 := gls_no_holder (pre ++ (n, { t with last_sources := some [] }) :: post) ?_
  · rw [h2]
  · intro p hp
    rcases List.mem_append.mp hp with hmem | hmem
    · exact hpre p hmem
    · rcases List.mem_cons.mp hmem with hrfl | hmem
      · rw [hrfl]
        rfl
      · exact hpost p hmem

/-- C4 as stated is false: with two tools both holding citations the second
of two back-to-back drains is non-empty as well. -/
theorem drain_twice_two_holders :
    holdsSources toolOne = true ∧ holdsSources toolTwo = true ∧
    (ToolManager.get_last_sources twoToolReg).1 = [srcA] ∧
    (ToolManager.get_last_sources (ToolManager.get_last_sources twoToolReg).2).1 = [srcB] ∧
    [srcB] ≠ ([] : List Source) :=
  ⟨rfl, rfl, rfl, rfl, by decide⟩

/-- Witness for the amended C4. -/
theorem drain_twice_single_holder_witness :
    (ToolManager.get_last_sources [("zero", toolEmpty), ("one", toolOne)]).1 ≠ [] ∧
    (ToolManager.get_last_sources
      (ToolManager.get_last_sources [("zero", toolEmpty), ("one", toolOne)]).2).1 = [] :=
  drain_twice_single_holder [("zero", toolEmpty)] [] "one" toolOne [srcA]
    (by decide) (by decide) rfl (by decide)

/-! ## Claim C5: one citation per distinct pair, numbered 1..k -/

/-- C5: a completed formatting pass over a non-empty, error-free result set
builds exactly one citation record per distinct (course title, lesson
number) pair, in first-seen order, however many documents share a pair,
and the citation numbers are exactly 1, 2, ..., k. -/
theorem citations_dedup_and_numbering (store : VectorStore) (rs : SearchResults)
    (text : String) (srcs : List Source)
    (_hne : rs.documents ≠ []) (_herr : rs.error = none)
    (h : CourseSearchTool.format_results store rs = Except.ok (text, srcs)) :
    srcs.map sourcePair = firstSeenPairs (resultPairs rs) ∧
    srcs.map Source.citation_number = List.range' 1 srcs.length :=
  ⟨(format_results_ok store rs text srcs h).2.1,
   (format_results_ok store rs text srcs h).2.2.1⟩

/-- Witness for C5: two documents sharing the pair (A, no lesson) yield one
record numbered 1. -/
theorem citations_dedup_and_numbering_witness :
    rsTwoDocs.documents ≠ [] ∧ rsTwoDocs.error = none ∧
    ([⟨"A", none, none, none, none, 1⟩] : List Source).map sourcePair =
      firstSeenPairs (resultPairs rsTwoDocs) ∧
    ([⟨"A", none, none, none, none, 1⟩] : List Source).map Source.citation_number =
      List.range' 1 1 :=
  ⟨by decide, rfl,
   (citations_dedup_and_numbering storeNoop rsTwoDocs "[A]\nd1\n\n[A]\nd2"
     [⟨"A", none, none, none, none, 1⟩] (by decide) rfl rfl).1,
   (citations_dedup_and_numbering storeNoop rsTwoDocs "[A]\nd1\n\n[A]\nd2"
     [⟨"A", none, none, none, none, 1⟩] (by decide) rfl rfl).2⟩

/-! ## Claim C10: lesson number 0 is present -/

/-- Membership in the first-seen deduplication, relative to a seen set. -/
theorem mem_pairDedupFrom : ∀ (ps seen : List (String × Option Int))
    (p : String × Option Int),
    p ∈ pairDedupFrom seen ps ↔ p ∈ ps ∧ p ∉ seen
  | [], seen, p => by simp [pairDedupFrom]
  | q :: ps, seen, p => by
    simp only [pairDedupFrom]
    by_cases hq : q ∈ seen
    · rw [if_pos hq, mem_pairDedupFrom ps seen p]
      constructor
      · rintro ⟨hps, hns⟩
        exact ⟨List.mem_cons_of_mem _ hps, hns⟩
      · rintro ⟨hmem, hns⟩
        rcases List.mem_cons.mp hmem with rfl | hps
        · exact absurd hq hns
        · exact ⟨hps, hns⟩
    · rw [if_neg hq]
      constructor
      · intro hmem
        rcases List.mem_cons.mp hmem with rfl | hmem
        · exact ⟨List.mem_cons_self _ _, hq⟩
        · obtain ⟨hps, hns⟩ := (mem_pairDedupFrom ps (q :: seen) p).mp hmem
          exact ⟨List.mem_cons_of_mem _ hps,
            fun hp => hns (List.mem_cons_of_mem _ hp)⟩
      · rintro ⟨hmem, hns⟩
        rcases List.mem_cons.mp hmem with rfl | hps
        · exact List.mem_cons_self _ _
        · by_cases hpq : p = q
          · rw [hpq]
            exact List.mem_cons_self _ _
          · refine List.mem_cons_of_mem _ ((mem_pairDedupFrom ps (q :: seen) p).mpr
              ⟨hps, ?_⟩)
            intro hp
            rcases List.mem_cons.mp hp with h' | h'
            · exact hpq h'
            · exact hns h'

/-- C10: a document whose metadata holds lesson number 0 gets the header
`[<course title> - Lesson 0]` (presence is `is not None`, so 0 counts);
the pair (course title, 0) yields its own citation record, with the lesson
link and title looked up for lesson 0. -/
theorem lesson_zero_treated_as_present (store : VectorStore) (rs : SearchResults)
    (text : String) (srcs : List Source) (i : Nat) (doc : String) (m : SearchMeta)
    (hitem : (rs.documents.zip rs.metadata)[i]? = some (doc, m))
    (hlesson : m.lesson_number = some 0)
    (h : CourseSearchTool.format_results store rs = Except.ok (text, srcs)) :
    ((rs.documents.zip rs.metadata).map blockOf)[i]? =
      some (CourseSearchTool.headerOf (m.course_title.getD "unknown") (some 0) ++
        "\n" ++ doc) ∧
    CourseSearchTool.headerOf (m.course_title.getD "unknown") (some 0) =
      ("[" ++ m.course_title.getD "unknown") ++ " - Lesson 0]" ∧
    text = String.intercalate "\n\n" ((rs.documents.zip rs.metadata).map blockOf) ∧
    ∃ s ∈ srcs, s.course_title = m.course_title.getD "unknown" ∧
      s.lesson_number = some 0 ∧
      store.get_lesson_link s.course_title 0 = Except.ok s.lesson_link ∧
      s.lesson_title = CourseSearchTool.get_lesson_title store s.course_title 0 := by
  obtain ⟨htext, hpairs, hnums, hlinks⟩ := format_results_ok store rs text srcs h
  refine ⟨?_, ?_, htext, ?_⟩
  · rw [List.getElem?_map, hitem]
    simp [blockOf, hlesson]
  · show (("[" ++ m.course_title.getD "unknown") ++ (" - Lesson " ++ intStr 0)) ++ "]" =
      ("[" ++ m.course_title.getD "unknown") ++ " - Lesson 0]"
    rw [String.append_assoc]
    rw [show (" - Lesson " ++ intStr 0) ++ "]" = " - Lesson 0]" from by decide]
  · have hzip : (doc, m) ∈ rs.documents.zip rs.metadata := List.getElem?_mem hitem
    have hpair_mem : (m.course_title.getD "unknown", some 0) ∈ resultPairs rs := by
      have := List.mem_map_of_mem (fun it : String × SearchMeta => metaPair it.2) hzip
      simpa [resultPairs, metaPair, hlesson] using this
    have hfs : (m.course_title.getD "unknown", some 0) ∈ firstSeenPairs (resultPairs rs) :=
      (mem_pairDedupFrom (resultPairs rs) [] _).mpr ⟨hpair_mem, by simp⟩
    rw [← hpairs] at hfs
    obtain ⟨s, hs, hsp⟩ := List.mem_map.mp hfs
    obtain ⟨hsc, hsl⟩ := Prod.mk.injEq .. ▸ hsp
    obtain ⟨hcl, hor⟩ := hlinks s hs
    rcases hor with ⟨hnone, _, _⟩ | ⟨n, hn, hll, hlt⟩
    · rw [hnone] at hsl
      exact absurd hsl (by simp)
    · have hn0 : n = 0 := by
        rw [hn] at hsl
        simpa using hsl
      subst hn0
      exact ⟨s, hs, hsc, hn ▸ rfl, hll, hlt⟩

/-! ## Claim C6: outline lesson ordering -/

/-- Evaluation of `natStr` at 2. -/
theorem natStr_two : natStr 2 = "2" := by
  norm_num [natStr, Nat.digits_def']
  decide

/-- Evaluation of `natStr` at 3. -/
theorem natStr_three : natStr 3 = "3" := by
  norm_num [natStr, Nat.digits_def']
  decide

/-- Amended C6: outline rendering is invariant under permutation of the
lesson list whenever the sort keys (lesson number, 0 when absent) are
pairwise distinct, and the rendered lessons are sorted ascending by that
key.  (With tied keys the stable sort preserves input order, so input
order leaks into the output.) -/
theorem outline_perm_invariant_distinct_keys (title course_link instructor : String)
    (l₁ l₂ : List LessonDict) (hperm : l₁.Perm l₂)
    (hkeys : (l₁.map CourseOutlineTool.sortKey).Pairwise (· ≠ ·)) :
    CourseOutlineTool.format_outline title course_link instructor l₁ =
      CourseOutlineTool.format_outline title course_link instructor l₂ ∧
    ((List.insertionSort
        (fun a b => CourseOutlineTool.sortKey a ≤ CourseOutlineTool.sortKey b) l₁).map
      CourseOutlineTool.sortKey).Sorted (· ≤ ·) := by
  haveI hTot : IsTotal LessonDict
      (fun a b => CourseOutlineTool.sortKey a ≤ CourseOutlineTool.sortKey b) :=
    ⟨fun a b => le_total _ _⟩
  haveI hTr : IsTrans LessonDict
      (fun a b => CourseOutlineTool.sortKey a ≤ CourseOutlineTool.sortKey b) :=
    ⟨fun _ _ _ hab hbc => le_trans hab hbc⟩
  have hs₁ := List.sorted_insertionSort
    (fun a b => CourseOutlineTool.sortKey a ≤ CourseOutlineTool.sortKey b) l₁
  have hs₂ := List.sorted_insertionSort
    (fun a b => CourseOutlineTool.sortKey a ≤ CourseOutlineTool.sortKey b) l₂
  have hp₁ := List.perm_insertionSort
    (fun a b => CourseOutlineTool.sortKey a ≤ CourseOutlineTool.sortKey b) l₁
  have hp₂ := List.perm_insertionSort
    (fun a b => CourseOutlineTool.sortKey a ≤ CourseOutlineTool.sortKey b) l₂
  have hkeys₁ : l₁.Pairwise
      (fun a b => CourseOutlineTool.sortKey a ≠ CourseOutlineTool.sortKey b) :=
    List.pairwise_map.mp hkeys
  have hkeys₂ : l₂.Pairwise
      (fun a b => CourseOutlineTool.sortKey a ≠ CourseOutlineTool.sortKey b) :=
    ((hperm.pairwise_iff fun h => h.symm).mp) hkeys₁
  have hk₁s := (hp₁.pairwise_iff fun h => h.symm).mpr hkeys₁
  have hk₂s := (hp₂.pairwise_iff fun h => h.symm).mpr hkeys₂
  have hstrict₁ : (List.insertionSort
      (fun a b => CourseOutlineTool.sortKey a ≤ CourseOutlineTool.sortKey b) l₁).Pairwise
      (fun a b => CourseOutlineTool.sortKey a < CourseOutlineTool.sortKey b) :=
    (hs₁.and hk₁s).imp fun hab => lt_of_le_of_ne hab.1 hab.2
  have hstrict₂ : (List.insertionSort
      (fun a b => CourseOutlineTool.sortKey a ≤ CourseOutlineTool.sortKey b) l₂).Pairwise
      (fun a b => CourseOutlineTool.sortKey a < CourseOutlineTool.sortKey b) :=
    (hs₂.and hk₂s).imp fun hab => lt_of_le_of_ne hab.1 hab.2
  haveI : IsAntisymm LessonDict
      (fun a b => CourseOutlineTool.sortKey a < CourseOutlineTool.sortKey b) :=
    ⟨fun _ _ h1 h2 => absurd h1 (not_lt.mpr (le_of_lt h2))⟩
  have hsorted_eq : List.insertionSort
      (fun a b => CourseOutlineTool.sortKey a ≤ CourseOutlineTool.sortKey b) l₁ =
      List.insertionSort
      (fun a b => CourseOutlineTool.sortKey a ≤ CourseOutlineTool.sortKey b) l₂ :=
    List.eq_of_perm_of_sorted (hp₁.trans (hperm.trans hp₂.symm)) hstrict₁ hstrict₂
  refine ⟨?_, List.pairwise_map.mpr hs₁⟩
  simp only [CourseOutlineTool.format_outline]
  rw [hsorted_eq, hperm.length_eq]

/-- C6 as stated is false: with two lessons sharing lesson number 0 the
stable sort keeps input order, so swapping the input lessons changes the
rendered outline. -/
theorem outline_order_sensitive_on_ties :
    ([lesDupA, lesDupB].Perm [lesDupB, lesDupA]) ∧
    CourseOutlineTool.format_outline "T" "No link available" "Unknown" [lesDupA, lesDupB] ≠
      CourseOutlineTool.format_outline "T" "No link available" "Unknown"
        [lesDupB, lesDupA] := by
  constructor
  · exact List.Perm.swap lesDupB lesDupA []
  · have e1 : CourseOutlineTool.format_outline "T" "No link available" "Unknown"
        [lesDupA, lesDupB] = "Course: T\n\nLessons (2 total):\n  0. A\n  0. B" := by
      simp only [CourseOutlineTool.format_outline]
      norm_num [natStr_two]
      decide
    have e2 : CourseOutlineTool.format_outline "T" "No link available" "Unknown"
        [lesDupB, lesDupA] = "Course: T\n\nLessons (2 total):\n  0. B\n  0. A" := by
      simp only [CourseOutlineTool.format_outline]
      norm_num [natStr_two]
      decide
    rw [e1, e2]
    decide

/-- Witness for the amended C6: the spec's example lessons, given out of
order, render identically to the sorted arrangement. -/
theorem outline_perm_invariant_witness :
    CourseOutlineTool.format_outline "T" "No link available" "Unknown" [les2, les0, les1] =
      CourseOutlineTool.format_outline "T" "No link available" "Unknown"
        [les0, les1, les2] ∧
    ((List.insertionSort
        (fun a b => CourseOutlineTool.sortKey a ≤ CourseOutlineTool.sortKey b)
        [les2, les0, les1]).map CourseOutlineTool.sortKey).Sorted (· ≤ ·) :=
  outline_perm_invariant_distinct_keys "T" "No link available" "Unknown"
    [les2, les0, les1] [les0, les1, les2] (by decide) (by decide)

/-- Witness for C10: one document in lesson 0 of course A gets the
`- Lesson 0` header and its own citation record with lesson fields looked
up for lesson 0. -/
theorem lesson_zero_witness :
    CourseSearchTool.headerOf "A" (some 0) = ("[" ++ "A") ++ " - Lesson 0]" ∧
    ∃ s ∈ [(⟨"A", none, some 0, none, none, 1⟩ : Source)],
      s.course_title = "A" ∧ s.lesson_number = some 0 ∧
      storeNoop.get_lesson_link s.course_title 0 = Except.ok s.lesson_link ∧
      s.lesson_title = CourseSearchTool.get_lesson_title storeNoop s.course_title 0 :=
  ⟨(lesson_zero_treated_as_present storeNoop rsLessonZero "[A - Lesson 0]\nd"
      [⟨"A", none, some 0, none, none, 1⟩] 0 "d" ⟨some "A", some 0⟩ rfl rfl rfl).2.1,
   (lesson_zero_treated_as_present storeNoop rsLessonZero "[A - Lesson 0]\nd"
      [⟨"A", none, some 0, none, none, 1⟩] 0 "d" ⟨some "A", some 0⟩ rfl rfl rfl).2.2.2⟩
